import Mathlib

/-!
Verification of the particle simulation engine of the repository
(src/src/App.jsx): the per-particle update `algorithmStep`, the per-frame
stepping loop of `Particles/useFrame`, and the pool rebuild policy of
`Particles/useEffect`.  JavaScript numbers are modelled over `ℝ`; the NaN
pathway relevant to parameter parsing is modelled separately with `JSNum`.
-/

noncomputable section

/-- A 3D vector, standing for a `THREE.Vector3`. -/
structure Vec3 where
  x : ℝ
  y : ℝ
  z : ℝ

/-- A particle of the pool: `{ pos, vel, seed }` as in App.jsx line 11. -/
structure Particle where
  pos : Vec3
  vel : Vec3
  seed : ℝ

/-- The simulation parameter object `sim` of App.jsx (lines 140-151), with
the fields the engine reads.  `count` is a natural number, `resetToken` an
integer counter, all other numeric fields are reals. -/
structure Params where
  paused : Bool
  count : ℕ
  pointSize : ℝ
  speed : ℝ
  scale : ℝ
  attraction : ℝ
  spawnRadius : ℝ
  cRe : ℝ
  cIm : ℝ
  resetToken : ℤ

/-- The initial parameter values of App.jsx lines 140-151. -/
def defaultSim : Params :=
  ⟨false, 1500, 0.9, 24, 24, 0.02, 20, -0.7, 0.27, 0⟩

/-- The per-particle update `algorithmStep(p, t, dt, params)` of App.jsx
lines 13-41, translated statement by statement: plane projection, one Julia
iteration, write-back of x/y with the depth assignment to z, attraction
accumulation into velocity, `pos.addScaledVector(vel, dt * speed)`, and
`vel.multiplyScalar(0.96)`.  `parseFloat` on an in-range numeric field is
the identity; the NaN pathway is modelled below by `algorithmStepJS`. -/
def algorithmStep (p : Particle) (t dt : ℝ) (params : Params) : Particle :=
  let scale := params.scale
  let attraction := params.attraction
  let speed := params.speed
  let cRe := params.cRe
  let cIm := params.cIm
  let x := p.pos.x / scale
  let y := p.pos.y / scale
  let xNew := x * x - y * y + cRe
  let yNew := 2 * x * y + cIm
  let px := xNew * scale
  let py := yNew * scale
  let pz := Real.sin (t * 0.5 + p.seed) * scale * 0.3
  let vx := p.vel.x + -px * attraction * dt
  let vy := p.vel.y + -py * attraction * dt
  let vz := p.vel.z + -pz * attraction * dt
  let px2 := px + vx * (dt * speed)
  let py2 := py + vy * (dt * speed)
  let pz2 := pz + vz * (dt * speed)
  ⟨⟨px2, py2, pz2⟩, ⟨vx * 0.96, vy * 0.96, vz * 0.96⟩, p.seed⟩

/-- Spec step (1): plane projection `x = pos.x / scale`, `y = pos.y / scale`. -/
def planeProject (pos : Vec3) (scale : ℝ) : ℝ × ℝ :=
  (pos.x / scale, pos.y / scale)

/-- Spec step (2): one Julia iteration `x' = x² − y² + cRe`, `y' = 2xy + cIm`. -/
def juliaIter (xy : ℝ × ℝ) (cRe cIm : ℝ) : ℝ × ℝ :=
  (xy.1 * xy.1 - xy.2 * xy.2 + cRe, 2 * xy.1 * xy.2 + cIm)

/-- Spec step (3): write back `pos.x = x'·scale`, `pos.y = y'·scale`, and the
unconditional depth assignment `pos.z = sin(t·0.5 + seed)·scale·0.3`. -/
def writeBack (xy : ℝ × ℝ) (scale t seed : ℝ) : Vec3 :=
  ⟨xy.1 * scale, xy.2 * scale, Real.sin (t * 0.5 + seed) * scale * 0.3⟩

/-- Spec step (4): `vel += −pos·attraction·dt` component-wise, using the
already-remapped position. -/
def accumAttraction (vel pos : Vec3) (attraction dt : ℝ) : Vec3 :=
  ⟨vel.x + -pos.x * attraction * dt,
   vel.y + -pos.y * attraction * dt,
   vel.z + -pos.z * attraction * dt⟩

/-- Spec step (5): `pos += vel·dt·speed`. -/
def integrate (pos vel : Vec3) (dt speed : ℝ) : Vec3 :=
  ⟨pos.x + vel.x * (dt * speed),
   pos.y + vel.y * (dt * speed),
   pos.z + vel.z * (dt * speed)⟩

/-- Spec step (6): `vel *= 0.96`, a fixed constant not scaled by dt. -/
def damp (vel : Vec3) : Vec3 :=
  ⟨vel.x * 0.96, vel.y * 0.96, vel.z * 0.96⟩

/-- The claim's six steps composed in the claimed order, written from the
spec's wording for comparison against `algorithmStep`. -/
def specStep (p : Particle) (t dt : ℝ) (params : Params) : Particle :=
  let xy := planeProject p.pos params.scale
  let xy' := juliaIter xy params.cRe params.cIm
  let pos1 := writeBack xy' params.scale t p.seed
  let vel1 := accumAttraction p.vel pos1 params.attraction dt
  let pos2 := integrate pos1 vel1 dt params.speed
  let vel2 := damp vel1
  ⟨pos2, vel2, p.seed⟩

/-- One slot of the output transform buffer: a position and the uniform
scale `params.pointSize` (App.jsx lines 74-77). -/
structure Transform where
  position : Vec3
  scaleFactor : ℝ

/-- The state owned by the stepper between frames: the accumulated clock
`clock.current` (App.jsx line 64) and the particle pool
`particles.current`. -/
structure SimState where
  clock : ℝ
  pool : List Particle

/-- The `useFrame` body of App.jsx lines 65-80: return unchanged when
paused; otherwise `clock += delta` (the raw delta), `t = clock`,
`dt = min(delta, 0.033)`, update every particle with `algorithmStep` and
overwrite the transform buffer with each updated position and the uniform
`pointSize` scale. -/
def frameStep (s : SimState) (buf : List Transform) (delta : ℝ)
    (params : Params) : SimState × List Transform :=
  if params.paused then (s, buf)
  else
    let clock := s.clock + delta
    let t := clock
    let dt := min delta 0.033
    let pool := s.pool.map (fun p => algorithmStep p t dt params)
    (⟨clock, pool⟩, pool.map (fun p => ⟨p.pos, params.pointSize⟩))

/-- Iterated frame invocations, one per element of `deltas`. -/
def frameSteps (s : SimState) (buf : List Transform) (deltas : List ℝ)
    (params : Params) : SimState × List Transform :=
  match deltas with
  | [] => (s, buf)
  | d :: ds =>
      let r := frameStep s buf d params
      frameSteps r.1 r.2 ds params

/-- The dependency array `[count, params.spawnRadius, params.resetToken]`
of the `useEffect` at App.jsx lines 50-62. -/
structure RebuildDeps where
  count : ℕ
  spawnRadius : ℝ
  resetToken : ℤ

instance : DecidableEq RebuildDeps := Classical.decEq _

/-- The dependency values read from the props at a render. -/
def depsOf (count : ℕ) (params : Params) : RebuildDeps :=
  ⟨count, params.spawnRadius, params.resetToken⟩

/-- State of the `Particles` component across renders: the dependency
values at the last effect run and the current pool `particles.current`. -/
structure PoolState where
  deps : RebuildDeps
  pool : List Particle

/-- React effect semantics for the `useEffect` of App.jsx lines 50-62: the
effect body (which replaces `particles.current` with a freshly built pool)
reruns exactly when the dependency array differs from the previous render;
otherwise the state, pool included, is untouched. -/
def renderUpdate (st : PoolState) (count : ℕ) (params : Params)
    (fresh : List Particle) : PoolState :=
  if depsOf count params = st.deps then st else ⟨depsOf count params, fresh⟩

/-- One particle of the rebuilt pool (App.jsx lines 52-59): each position
component is `(random − 0.5) · spawnRadius · 2` from its own random draw,
velocity is the zero vector, and the seed is `random · 1000`. -/
def mkParticle (spawnRadius r1 r2 r3 rs : ℝ) : Particle :=
  ⟨⟨(r1 - 0.5) * spawnRadius * 2,
    (r2 - 0.5) * spawnRadius * 2,
    (r3 - 0.5) * spawnRadius * 2⟩,
   ⟨0, 0, 0⟩, rs * 1000⟩

/-- The freshly built pool of the effect body, with the random source made
explicit: particle i consumes draws 4i..4i+3 in the source's call order
(three position components, then the seed). -/
def buildPool (count : ℕ) (spawnRadius : ℝ) (rnd : ℕ → ℝ) : List Particle :=
  (List.range count).map fun i =>
    mkParticle spawnRadius (rnd (4 * i)) (rnd (4 * i + 1)) (rnd (4 * i + 2))
      (rnd (4 * i + 3))

/-- Euclidean magnitude of a 3D vector. -/
def vnorm (v : Vec3) : ℝ :=
  Real.sqrt (v.x ^ 2 + v.y ^ 2 + v.z ^ 2)

/-- The particle after n per-particle updates, with arbitrary clock values
`ts` and deltas `ds` supplied at each step. -/
def stepsFrom (p : Particle) (ts ds : ℕ → ℝ) (params : Params) : ℕ → Particle
  | 0 => p
  | n + 1 => algorithmStep (stepsFrom p ts ds params n) (ts n) (ds n) params

/-- A JavaScript value as it may reach `parseFloat`: a finite number, or a
string that does not parse as a number. -/
inductive JSVal where
  | num : ℝ → JSVal
  | nonNumericStr : JSVal

/-- A JavaScript number restricted to the cases the claims exercise: a
finite real, or NaN.  Infinities are out of scope. -/
inductive JSNum where
  | num : ℝ → JSNum
  | nan : JSNum

/-- `parseFloat`: the identity on numbers; NaN on a non-numeric string. -/
def parseFloat : JSVal → JSNum
  | .num r => .num r
  | .nonNumericStr => .nan

/-- JS addition on finite-or-NaN numbers: NaN propagates. -/
def JSNum.add : JSNum → JSNum → JSNum
  | .num a, .num b => .num (a + b)
  | _, _ => .nan

/-- JS subtraction on finite-or-NaN numbers: NaN propagates. -/
def JSNum.sub : JSNum → JSNum → JSNum
  | .num a, .num b => .num (a - b)
  | _, _ => .nan

/-- JS multiplication on finite-or-NaN numbers: NaN propagates. -/
def JSNum.mul : JSNum → JSNum → JSNum
  | .num a, .num b => .num (a * b)
  | _, _ => .nan

/-- JS division on finite-or-NaN numbers: NaN propagates.  A zero divisor
(an infinity in JS) is outside this model; the engine's divisor is
`params.scale`, constrained positive by the spec. -/
def JSNum.div : JSNum → JSNum → JSNum
  | .num a, .num b => .num (a / b)
  | _, _ => .nan

/-- JS negation on finite-or-NaN numbers: NaN propagates. -/
def JSNum.neg : JSNum → JSNum
  | .num a => .num (-a)
  | .nan => .nan

/-- `Math.sin` on finite-or-NaN numbers: NaN propagates. -/
def JSNum.sinJ : JSNum → JSNum
  | .num a => .num (Real.sin a)
  | .nan => .nan

/-- A 3D vector with JS-number components. -/
structure JSVec3 where
  x : JSNum
  y : JSNum
  z : JSNum

/-- A particle with JS-number position and velocity; the seed is always a
finite number (it is produced by `Math.random() * 1000`). -/
structure JSParticle where
  pos : JSVec3
  vel : JSVec3
  seed : ℝ

/-- The parameter fields `algorithmStep` reads, with `cRe`/`cIm` kept in
their raw (possibly non-numeric) form as they reach `parseFloat`. -/
structure ParamsJS where
  scale : ℝ
  attraction : ℝ
  speed : ℝ
  cRe : JSVal
  cIm : JSVal

/-- `algorithmStep` of App.jsx lines 13-41 over JS numbers, keeping the
`parseFloat(params.cRe)` / `parseFloat(params.cIm)` calls of lines 15-16
explicit so that the NaN produced by a non-numeric constant can be traced
through the update. -/
def algorithmStepJS (p : JSParticle) (t dt : ℝ) (params : ParamsJS) :
    JSParticle :=
  let scale : JSNum := .num params.scale
  let attraction : JSNum := .num params.attraction
  let cRe := parseFloat params.cRe
  let cIm := parseFloat params.cIm
  let dtJ : JSNum := .num dt
  let x := p.pos.x.div scale
  let y := p.pos.y.div scale
  let xNew := ((x.mul x).sub (y.mul y)).add cRe
  let yNew := (((JSNum.num 2).mul x).mul y).add cIm
  let px := xNew.mul scale
  let py := yNew.mul scale
  let pz := ((JSNum.sinJ (((JSNum.num t).mul (.num 0.5)).add
    (.num p.seed))).mul scale).mul (.num 0.3)
  let vx := p.vel.x.add ((px.neg.mul attraction).mul dtJ)
  let vy := p.vel.y.add ((py.neg.mul attraction).mul dtJ)
  let vz := p.vel.z.add ((pz.neg.mul attraction).mul dtJ)
  let s : JSNum := .num (dt * params.speed)
  let px2 := px.add (vx.mul s)
  let py2 := py.add (vy.mul s)
  let pz2 := pz.add (vz.mul s)
  let dampJ : JSNum := .num 0.96
  ⟨⟨px2, py2, pz2⟩, ⟨vx.mul dampJ, vy.mul dampJ, vz.mul dampJ⟩, p.seed⟩

lemma JSNum.add_nan (a : JSNum) : a.add .nan = .nan := by cases a <;> rfl

lemma JSNum.nan_add (b : JSNum) : JSNum.nan.add b = .nan := by cases b <;> rfl

lemma JSNum.nan_mul (b : JSNum) : JSNum.nan.mul b = .nan := by cases b <;> rfl

lemma JSNum.neg_nan : JSNum.nan.neg = .nan := rfl

lemma vnorm_nonneg (v : Vec3) : 0 ≤ vnorm v := Real.sqrt_nonneg _

/-- Magnitude of a component-wise scaling by a nonnegative constant. -/
lemma vnorm_scale (c : ℝ) (hc : 0 ≤ c) (v : Vec3) :
    vnorm ⟨v.x * c, v.y * c, v.z * c⟩ = c * vnorm v := by
  unfold vnorm
  rw [show (v.x * c) ^ 2 + (v.y * c) ^ 2 + (v.z * c) ^ 2 =
      c ^ 2 * (v.x ^ 2 + v.y ^ 2 + v.z ^ 2) by ring,
    Real.sqrt_mul (sq_nonneg c), Real.sqrt_sq hc]

/-- With attraction = 0 the update leaves only the damping acting on the
velocity. -/
lemma step_vel_damp (params : Params) (h : params.attraction = 0)
    (p : Particle) (t dt : ℝ) :
    (algorithmStep p t dt params).vel =
      ⟨p.vel.x * 0.96, p.vel.y * 0.96, p.vel.z * 0.96⟩ := by
  simp [algorithmStep, h]

/-- C1: the per-particle update is exactly the composition, in order, of
plane projection, one Julia iteration, write-back with the unconditional z
assignment, attraction accumulation on the remapped position, integration
`pos += vel·dt·speed`, and the fixed damping `vel *= 0.96`. -/
theorem C1_step_order (p : Particle) (t dt : ℝ) (params : Params) :
    algorithmStep p t dt params = specStep p t dt params := rfl

/-- C2 counterexample: with incoming delta 1.0 and the default (non-paused)
parameters, the clock advances by the raw delta 1.0, which exceeds 0.033
and differs from the clamped delta min(1.0, 0.033) = 0.033. -/
theorem C2_clock_counterexample :
    (frameStep ⟨0, []⟩ [] 1 defaultSim).1.clock = 1 ∧
      min (1 : ℝ) 0.033 = 0.033 ∧
      ¬ ((frameStep ⟨0, []⟩ [] 1 defaultSim).1.clock - 0 ≤ 0.033) := by
  refine ⟨?_, ?_, ?_⟩ <;> simp [frameStep, defaultSim] <;> norm_num

/-- C2 amended: for every non-paused step with incoming delta d the clock
advances by the raw delta d (not the clamped one); it is monotone whenever
d is nonnegative, but its increment is d and can exceed 0.033. -/
theorem C2_clock_raw_delta (s : SimState) (buf : List Transform) (d : ℝ)
    (params : Params) (h : params.paused = false) :
    (frameStep s buf d params).1.clock = s.clock + d ∧
      (0 ≤ d → s.clock ≤ (frameStep s buf d params).1.clock) := by
  constructor
  · simp [frameStep, h]
  · intro hd
    simp only [frameStep, h, Bool.false_eq_true, if_false]
    linarith

/-- C2 amended, witness: concrete non-paused step with delta 1. -/
theorem C2_clock_raw_delta_witness :
    defaultSim.paused = false ∧
      ((frameStep ⟨0, []⟩ [] 1 defaultSim).1.clock = 0 + 1 ∧
        (0 ≤ (1 : ℝ) →
          (0 : ℝ) ≤ (frameStep ⟨0, []⟩ [] 1 defaultSim).1.clock)) :=
  ⟨rfl, C2_clock_raw_delta ⟨0, []⟩ [] 1 defaultSim rfl⟩

/-- C3: the pool is rebuilt (state replaced with the fresh pool) iff the
dependency triple (count, spawnRadius, resetToken) changed since the last
build; parameters outside the triple — speed, attraction, cRe, cIm,
pointSize, paused — never affect the outcome, and when the triple is
unchanged the state, pool included, persists identically. -/
theorem C3_rebuild_iff (st : PoolState) (count : ℕ) (params : Params)
    (fresh : List Particle) :
    (renderUpdate st count params fresh = st ↔ depsOf count params = st.deps) ∧
      (depsOf count params ≠ st.deps →
        (renderUpdate st count params fresh).pool = fresh) ∧
      (∀ q : Params, q.spawnRadius = params.spawnRadius →
        q.resetToken = params.resetToken →
        renderUpdate st count q fresh = renderUpdate st count params fresh) := by
  refine ⟨⟨?_, ?_⟩, ?_, ?_⟩
  · intro heq
    by_contra hne
    have hd : (renderUpdate st count params fresh).deps = depsOf count params := by
      simp [renderUpdate, hne]
    rw [heq] at hd
    exact hne hd.symm
  · intro h
    simp [renderUpdate, h]
  · intro h
    simp [renderUpdate, h]
  · intro q h1 h2
    have hq : depsOf count q = depsOf count params := by
      simp [depsOf, h1, h2]
    simp [renderUpdate, hq]

/-- C3 witness: from a state built with (count, spawnRadius, resetToken) =
(1500, 20, 0), a render with only cRe changed keeps the state (pool
persists), while a render with only resetToken changed replaces the pool
with the fresh one. -/
theorem C3_rebuild_iff_witness :
    renderUpdate ⟨⟨1500, 20, 0⟩, [⟨⟨1, 2, 3⟩, ⟨0, 0, 0⟩, 7⟩]⟩ 1500
        ⟨false, 1500, 0.9, 24, 24, 0.02, 20, 0.5, 0.27, 0⟩
        [⟨⟨4, 4, 4⟩, ⟨0, 0, 0⟩, 9⟩] =
      ⟨⟨1500, 20, 0⟩, [⟨⟨1, 2, 3⟩, ⟨0, 0, 0⟩, 7⟩]⟩ ∧
    (renderUpdate ⟨⟨1500, 20, 0⟩, [⟨⟨1, 2, 3⟩, ⟨0, 0, 0⟩, 7⟩]⟩ 1500
        ⟨false, 1500, 0.9, 24, 24, 0.02, 20, -0.7, 0.27, 1⟩
        [⟨⟨4, 4, 4⟩, ⟨0, 0, 0⟩, 9⟩]).pool =
      [⟨⟨4, 4, 4⟩, ⟨0, 0, 0⟩, 9⟩] := by
  constructor
  · exact (C3_rebuild_iff ⟨⟨1500, 20, 0⟩, [⟨⟨1, 2, 3⟩, ⟨0, 0, 0⟩, 7⟩]⟩ 1500
      ⟨false, 1500, 0.9, 24, 24, 0.02, 20, 0.5, 0.27, 0⟩
      [⟨⟨4, 4, 4⟩, ⟨0, 0, 0⟩, 9⟩]).1.mpr rfl
  · refine (C3_rebuild_iff ⟨⟨1500, 20, 0⟩, [⟨⟨1, 2, 3⟩, ⟨0, 0, 0⟩, 7⟩]⟩ 1500
      ⟨false, 1500, 0.9, 24, 24, 0.02, 20, -0.7, 0.27, 1⟩
      [⟨⟨4, 4, 4⟩, ⟨0, 0, 0⟩, 9⟩]).2.1 ?_
    simp [depsOf]

/-- C4: when `params.paused` is true a step invocation is a no-op — the
state (clock and every particle) and the transform buffer are returned
unchanged across any number of consecutive invocations. -/
theorem C4_paused_noop (params : Params) (h : params.paused = true)
    (deltas : List ℝ) (s : SimState) (buf : List Transform) :
    frameSteps s buf deltas params = (s, buf) := by
  induction deltas generalizing s buf with
  | nil => rfl
  | cons d ds ih =>
      have hstep : frameStep s buf d params = (s, buf) := by
        simp [frameStep, h]
      simp [frameSteps, hstep, ih]

/-- C4 witness: three consecutive paused invocations leave a concrete
state and buffer unchanged. -/
theorem C4_paused_noop_witness :
    frameSteps ⟨5, [⟨⟨1, 2, 3⟩, ⟨4, 5, 6⟩, 7⟩]⟩ [] [1, 2, 3]
        ⟨true, 1500, 0.9, 24, 24, 0.02, 20, -0.7, 0.27, 0⟩ =
      (⟨5, [⟨⟨1, 2, 3⟩, ⟨4, 5, 6⟩, 7⟩]⟩, []) :=
  C4_paused_noop ⟨true, 1500, 0.9, 24, 24, 0.02, 20, -0.7, 0.27, 0⟩ rfl
    [1, 2, 3] ⟨5, [⟨⟨1, 2, 3⟩, ⟨4, 5, 6⟩, 7⟩]⟩ []

/-- Component bound for a rebuilt position: with a draw in [0, 1) and a
nonnegative radius, `(r − 0.5)·R·2` lies in [−R, R]. -/
lemma spawn_component_bound (R r : ℝ) (hR : 0 ≤ R) (h0 : 0 ≤ r)
    (h1 : r < 1) : -R ≤ (r - 0.5) * R * 2 ∧ (r - 0.5) * R * 2 ≤ R := by
  constructor <;> nlinarith

/-- C5: after a rebuild with count N and spawn radius R ≥ 0 from draws in
[0, 1), the pool has exactly N particles, every initial position component
lies in [−R, R], every initial velocity is the zero vector, and every seed
lies in [0, 1000). -/
theorem C5_rebuild_contents (N : ℕ) (R : ℝ) (rnd : ℕ → ℝ) (hR : 0 ≤ R)
    (hrnd : ∀ n, 0 ≤ rnd n ∧ rnd n < 1) :
    (buildPool N R rnd).length = N ∧
      ∀ p ∈ buildPool N R rnd,
        (-R ≤ p.pos.x ∧ p.pos.x ≤ R) ∧ (-R ≤ p.pos.y ∧ p.pos.y ≤ R) ∧
          (-R ≤ p.pos.z ∧ p.pos.z ≤ R) ∧ p.vel = ⟨0, 0, 0⟩ ∧
          0 ≤ p.seed ∧ p.seed < 1000 := by
  constructor
  · simp [buildPool]
  · intro p hp
    simp only [buildPool, List.mem_map, List.mem_range] at hp
    obtain ⟨i, _, rfl⟩ := hp
    refine ⟨?_, ?_, ?_, rfl, ?_, ?_⟩
    · exact spawn_component_bound R (rnd (4 * i)) hR (hrnd _).1 (hrnd _).2
    · exact spawn_component_bound R (rnd (4 * i + 1)) hR (hrnd _).1 (hrnd _).2
    · exact spawn_component_bound R (rnd (4 * i + 2)) hR (hrnd _).1 (hrnd _).2
    · have := (hrnd (4 * i + 3)).1
      simp only [mkParticle]
      nlinarith
    · have := (hrnd (4 * i + 3)).2
      simp only [mkParticle]
      nlinarith

/-- C5 witness: a rebuild with N = 2, R = 20 and the constant draw 1/2. -/
theorem C5_rebuild_contents_witness :
    (0 : ℝ) ≤ 20 ∧ (∀ n : ℕ, 0 ≤ (fun _ : ℕ => (1 : ℝ) / 2) n ∧
        (fun _ : ℕ => (1 : ℝ) / 2) n < 1) ∧
      ((buildPool 2 20 fun _ => (1 : ℝ) / 2).length = 2 ∧
        ∀ p ∈ buildPool 2 20 fun _ => (1 : ℝ) / 2,
          (-20 ≤ p.pos.x ∧ p.pos.x ≤ 20) ∧ (-20 ≤ p.pos.y ∧ p.pos.y ≤ 20) ∧
            (-20 ≤ p.pos.z ∧ p.pos.z ≤ 20) ∧ p.vel = ⟨0, 0, 0⟩ ∧
            0 ≤ p.seed ∧ p.seed < 1000) :=
  ⟨by norm_num, fun n => ⟨by norm_num, by norm_num⟩,
    C5_rebuild_contents 2 20 (fun _ => (1 : ℝ) / 2) (by norm_num)
      fun n => ⟨by norm_num, by norm_num⟩⟩

/-- C6: in every non-paused step the per-particle update runs with
dt = min(delta, 0.033), the incoming delta clamped to at most 0.033. -/
theorem C6_clamped_dt (s : SimState) (buf : List Transform) (d : ℝ)
    (params : Params) (h : params.paused = false) :
    (frameStep s buf d params).1.pool =
      s.pool.map (fun p => algorithmStep p (s.clock + d) (min d 0.033) params) := by
  simp [frameStep, h]

/-- C6 witness: a supplied delta of 1.0 seconds is integrated with
dt = min(1, 0.033) = 0.033. -/
theorem C6_clamped_dt_witness :
    defaultSim.paused = false ∧
      (frameStep ⟨0, [⟨⟨1, 2, 3⟩, ⟨0, 0, 0⟩, 7⟩]⟩ [] 1 defaultSim).1.pool =
        [⟨⟨1, 2, 3⟩, ⟨0, 0, 0⟩, 7⟩].map
          (fun p => algorithmStep p (0 + 1) 0.033 defaultSim) := by
  refine ⟨rfl, ?_⟩
  have h := C6_clamped_dt ⟨0, [⟨⟨1, 2, 3⟩, ⟨0, 0, 0⟩, 7⟩]⟩ [] 1 defaultSim rfl
  rw [h]
  norm_num

/-- C7: the per-particle update is deterministic — a pure function of the
particle's fields, the clock, the delta and the parameters: two particles
with identical fields yield identical results under any two invocations. -/
theorem C7_deterministic (p q : Particle) (t dt : ℝ) (params : Params)
    (hp : p.pos = q.pos) (hv : p.vel = q.vel) (hs : p.seed = q.seed) :
    algorithmStep p t dt params = algorithmStep q t dt params := by
  have hpq : p = q := by cases p; cases q; simp_all
  rw [hpq]

/-- C7 witness: two invocations on a concrete particle state agree. -/
theorem C7_deterministic_witness :
    algorithmStep ⟨⟨1, 2, 3⟩, ⟨4, 5, 6⟩, 7⟩ 2 0.033 defaultSim =
      algorithmStep ⟨⟨1, 2, 3⟩, ⟨4, 5, 6⟩, 7⟩ 2 0.033 defaultSim :=
  C7_deterministic ⟨⟨1, 2, 3⟩, ⟨4, 5, 6⟩, 7⟩ ⟨⟨1, 2, 3⟩, ⟨4, 5, 6⟩, 7⟩
    2 0.033 defaultSim rfl rfl rfl

/-- C8: with attraction = 0 each update multiplies the velocity magnitude
by exactly 0.96, so along any sequence of steps (any clock values and
deltas, hence independent of dt and the other parameters) the magnitude is
0.96ⁿ times the initial one, non-increasing, and converges to 0. -/
theorem C8_damping_convergence (params : Params) (h : params.attraction = 0)
    (p : Particle) (ts ds : ℕ → ℝ) :
    (∀ (q : Particle) (t dt : ℝ),
        vnorm (algorithmStep q t dt params).vel = 0.96 * vnorm q.vel) ∧
      (∀ n, vnorm (stepsFrom p ts ds params n).vel =
        0.96 ^ n * vnorm p.vel) ∧
      (∀ n, vnorm (stepsFrom p ts ds params (n + 1)).vel ≤
        vnorm (stepsFrom p ts ds params n).vel) ∧
      Filter.Tendsto (fun n => vnorm (stepsFrom p ts ds params n).vel)
        Filter.atTop (nhds 0) := by
  have hstep : ∀ (q : Particle) (t dt : ℝ),
      vnorm (algorithmStep q t dt params).vel = 0.96 * vnorm q.vel := by
    intro q t dt
    rw [step_vel_damp params h q t dt, vnorm_scale 0.96 (by norm_num) q.vel]
  have hn : ∀ n, vnorm (stepsFrom p ts ds params n).vel =
      0.96 ^ n * vnorm p.vel := by
    intro n
    induction n with
    | zero => simp [stepsFrom]
    | succ k ih =>
        have : stepsFrom p ts ds params (k + 1) =
            algorithmStep (stepsFrom p ts ds params k) (ts k) (ds k) params := rfl
        rw [this, hstep, ih]
        ring
  refine ⟨hstep, hn, ?_, ?_⟩
  · intro n
    rw [hn (n + 1), hn n]
    have hpow : (0.96 : ℝ) ^ (n + 1) ≤ 0.96 ^ n := by
      rw [pow_succ]
      nlinarith [pow_nonneg (by norm_num : (0 : ℝ) ≤ 0.96) n]
    exact mul_le_mul_of_nonneg_right hpow (vnorm_nonneg p.vel)
  · have hlim : Filter.Tendsto (fun n : ℕ => (0.96 : ℝ) ^ n * vnorm p.vel)
        Filter.atTop (nhds 0) := by
      have := (tendsto_pow_atTop_nhds_zero_of_lt_one
        (by norm_num : (0 : ℝ) ≤ 0.96) (by norm_num : (0.96 : ℝ) < 1)).mul_const
        (vnorm p.vel)
      simpa using this
    exact Filter.Tendsto.congr (fun n => (hn n).symm) hlim

/-- C8 witness: with attraction set to 0 in the otherwise default
parameters, a concrete particle's velocity magnitude tends to 0. -/
theorem C8_damping_convergence_witness :
    (⟨false, 1500, 0.9, 24, 24, 0, 20, -0.7, 0.27, 0⟩ : Params).attraction = 0 ∧
      Filter.Tendsto (fun n => vnorm (stepsFrom ⟨⟨1, 2, 3⟩, ⟨4, 5, 6⟩, 7⟩
        (fun _ => 0) (fun _ => 0)
        ⟨false, 1500, 0.9, 24, 24, 0, 20, -0.7, 0.27, 0⟩ n).vel)
        Filter.atTop (nhds 0) :=
  ⟨rfl, (C8_damping_convergence ⟨false, 1500, 0.9, 24, 24, 0, 20, -0.7, 0.27, 0⟩
    rfl ⟨⟨1, 2, 3⟩, ⟨4, 5, 6⟩, 7⟩ (fun _ => 0) (fun _ => 0)).2.2.2⟩

/-- C9 counterexample: with a non-numeric cRe the per-particle update is
not rejected — it runs, and the resulting position's x component is NaN,
already inside the pool. -/
theorem C9_no_validation_counterexample :
    (algorithmStepJS ⟨⟨.num 1, .num 2, .num 3⟩, ⟨.num 0, .num 0, .num 0⟩, 0⟩
        0 0.033 ⟨24, 0.02, 24, JSVal.nonNumericStr, JSVal.num 0.27⟩).pos.x =
      JSNum.nan := rfl

/-- C9 amended: `parseFloat` runs inside the per-particle update, not at a
validation boundary; whenever cRe parses to NaN the update still executes
and the NaN propagates into the particle's x position and x velocity. -/
theorem C9_nan_propagates (p : JSParticle) (t dt : ℝ) (params : ParamsJS)
    (h : parseFloat params.cRe = JSNum.nan) :
    (algorithmStepJS p t dt params).pos.x = JSNum.nan ∧
      (algorithmStepJS p t dt params).vel.x = JSNum.nan := by
  refine ⟨?_, ?_⟩ <;>
    simp [algorithmStepJS, h, JSNum.add_nan, JSNum.nan_add, JSNum.nan_mul,
      JSNum.neg_nan]

/-- C9 amended, witness: a concrete particle stepped with a non-numeric
cRe ends with NaN in both the x position and the x velocity. -/
theorem C9_nan_propagates_witness :
    parseFloat (ParamsJS.cRe ⟨24, 0.02, 24, JSVal.nonNumericStr,
        JSVal.num 0.27⟩) = JSNum.nan ∧
      ((algorithmStepJS ⟨⟨.num 1, .num 2, .num 3⟩, ⟨.num 0, .num 0, .num 0⟩, 0⟩
          0 0.033 ⟨24, 0.02, 24, JSVal.nonNumericStr, JSVal.num 0.27⟩).pos.x =
        JSNum.nan ∧
      (algorithmStepJS ⟨⟨.num 1, .num 2, .num 3⟩, ⟨.num 0, .num 0, .num 0⟩, 0⟩
          0 0.033 ⟨24, 0.02, 24, JSVal.nonNumericStr, JSVal.num 0.27⟩).vel.x =
        JSNum.nan) :=
  ⟨rfl, C9_nan_propagates ⟨⟨.num 1, .num 2, .num 3⟩, ⟨.num 0, .num 0, .num 0⟩, 0⟩
    0 0.033 ⟨24, 0.02, 24, JSVal.nonNumericStr, JSVal.num 0.27⟩ rfl⟩

/-- C10: the update never reads the incoming position's z component — it is
overwritten from clock and seed before any read — so two inputs differing
only in pos.z produce identical outputs. -/
theorem C10_z_independent (p q : Particle) (t dt : ℝ) (params : Params)
    (hx : p.pos.x = q.pos.x) (hy : p.pos.y = q.pos.y) (hv : p.vel = q.vel)
    (hs : p.seed = q.seed) :
    algorithmStep p t dt params = algorithmStep q t dt params := by
  obtain ⟨⟨px, py, pz⟩, pv, ps⟩ := p
  obtain ⟨⟨qx, qy, qz⟩, qv, qs⟩ := q
  simp only at hx hy hv hs
  subst hx hy hv hs
  rfl

/-- C10 witness: two concrete particles differing only in pos.z step to the
same result. -/
theorem C10_z_independent_witness :
    algorithmStep ⟨⟨1, 2, 0⟩, ⟨4, 5, 6⟩, 7⟩ 2 0.033 defaultSim =
      algorithmStep ⟨⟨1, 2, 55⟩, ⟨4, 5, 6⟩, 7⟩ 2 0.033 defaultSim :=
  C10_z_independent ⟨⟨1, 2, 0⟩, ⟨4, 5, 6⟩, 7⟩ ⟨⟨1, 2, 55⟩, ⟨4, 5, 6⟩, 7⟩
    2 0.033 defaultSim rfl rfl rfl rfl

end
